import Mathlib

/-!
Shallow embedding of the ble-glucose protocol engine (src/index.js) and
verification of its specification claims.

The embedding models:
* the IEEE-11073 16-bit SFLOAT decoder `getSFLOAT`;
* the glucose measurement parser `parseGlucoseMeasurement`;
* the measurement context parser `parseMeasurementContext`;
* the RACP response handler `handleRACP`;
* the notification handler `handleNotifications` and its adjacent-only
  de-duplication of measurement records;
* the record-issuing operations `getNumberOfRecords`, `getAllRecords`,
  `getDeltaRecords`, `getDeltaNumberOfRecords`.

Byte buffers are `List Nat` (each element one byte); DataView reads that
would throw a RangeError in JavaScript are modelled as `Except.error`.
Glucose values are exact rationals; the SFLOAT sentinels NaN and the two
infinities are explicit constructors.
-/

namespace BleGlucose

/-- Measurement flag: time offset present (0x01). -/
def FLAGS_TIME_OFFSET_PRESENT : Nat := 0x01

/-- Measurement flag: glucose concentration, type and sample location present (0x02). -/
def FLAGS_GLUCOSE_PRESENT : Nat := 0x02

/-- Measurement flag: glucose concentration units (0x04). -/
def FLAGS_IS_MMOL : Nat := 0x04

/-- Measurement flag: sensor status annunciation present (0x08). -/
def FLAGS_STATUS_PRESENT : Nat := 0x08

/-- Measurement flag: context information follows (0x10). -/
def FLAGS_CONTEXT_INFO : Nat := 0x10

/-- Context flag: carbohydrate ID and carbohydrate present (0x01). -/
def CONTEXT_FLAGS_CARBS : Nat := 0x01

/-- Context flag: meal present (0x02). -/
def CONTEXT_FLAGS_MEAL : Nat := 0x02

/-- Context flag: extended flags present (0x80). -/
def CONTEXT_FLAGS_EXTENDED : Nat := 0x80

/-- Embedding of `hasFlag(flag, v)`: true when the flag bit is set in `v`
(JavaScript truthiness of `flag.value & v`). -/
def hasFlag (flag v : Nat) : Bool := flag &&& v != 0

/-- One byte read, `DataView.getUint8`: fails (RangeError) out of bounds. -/
def getUint8 (buf : List Nat) (i : Nat) : Except String Nat :=
  match buf[i]? with
  | some b => .ok b
  | none => .error "RangeError"

/-- Little-endian 16-bit unsigned read, `DataView.getUint16(i, true)`. -/
def getUint16LE (buf : List Nat) (i : Nat) : Except String Nat := do
  let lo ← getUint8 buf i
  let hi ← getUint8 buf (i + 1)
  pure (lo + 256 * hi)

/-- Little-endian 16-bit signed read, `DataView.getInt16(i, true)`. -/
def getInt16LE (buf : List Nat) (i : Nat) : Except String Int := do
  let v ← getUint16LE buf i
  pure (if 0x8000 ≤ v then (v : Int) - 0x10000 else (v : Int))

/-- Calendar date-time as decoded from measurement bytes 3 to 9. -/
structure DateTime where
  year : Nat
  month : Nat
  day : Nat
  hours : Nat
  minutes : Nat
  seconds : Nat
deriving DecidableEq, Repr

/-- Modelled from the spec: sundial.buildTimestamp turns the decoded date-time
fields into the record timestamp; the external sundial library is not part of
this repository, so the timestamp is represented by the date-time itself. -/
def buildTimestamp (d : DateTime) : DateTime := d

/-- Result of SFLOAT decoding: a sentinel or an exact rational value. -/
inductive SFloatRes where
  | nan : SFloatRes
  | posInf : SFloatRes
  | negInf : SFloatRes
  | num : ℚ → SFloatRes
deriving DecidableEq, Repr

/-- Embedding of `getSFLOAT(value, units)` from src/index.js: sentinel switch
first, then top-4-bit exponent, unit bias (throwing on unknown units), low
12-bit mantissa, result mantissa times ten to the exponent. -/
def getSFLOAT (value : Nat) (units : String) : Except String SFloatRes :=
  if value = 0x07FF then .ok .nan
  else if value = 0x0800 then .ok .nan
  else if value = 0x07FE then .ok .posInf
  else if value = 0x0802 then .ok .negInf
  else if value = 0x0801 then .ok .nan
  else do
    let exponent0 : Int := (value >>> 12 : Nat)
    let exponent1 : Int := if 8 ≤ exponent0 then exponent0 - 16 else exponent0
    let exponent ←
      if units = "mg/dL" then pure (exponent1 + 5)
      else if units = "mmol/L" then pure (exponent1 + 3)
      else (.error "Illegal units for glucose value" : Except String Int)
    let mantissa0 : Int := (value &&& 0x0FFF : Nat)
    let mantissa : Int := if 0x0800 ≤ mantissa0 then mantissa0 - 4096 else mantissa0
    pure (.num ((mantissa : ℚ) * (10 : ℚ) ^ exponent))

/-- Reference definition of the SFLOAT decode, written from the words of the
spec: the five reserved patterns map to sentinels, every other value decodes
to a twos-complement 12-bit mantissa times ten to a twos-complement 4-bit
exponent plus the unit bias. -/
def sfloatSpec (value : Nat) (units : String) : SFloatRes :=
  if value = 0x07FF ∨ value = 0x0800 ∨ value = 0x0801 then .nan
  else if value = 0x07FE then .posInf
  else if value = 0x0802 then .negInf
  else
    let exponent0 : Int := (value / 4096 : Nat)
    let exp : Int := (if 8 ≤ exponent0 then exponent0 - 16 else exponent0)
      + (if units = "mg/dL" then 5 else 3)
    let mantissa0 : Int := (value % 4096 : Nat)
    let man : Int := if 0x0800 ≤ mantissa0 then mantissa0 - 4096 else mantissa0
    .num ((man : ℚ) * (10 : ℚ) ^ exp)

/-- JavaScript logical AND on numbers: returns the left operand when it is
falsy (zero), otherwise the right operand. The source uses this operator in
the sample-location extraction. -/
def jsAnd (a b : Nat) : Nat := if a = 0 then a else b

/-- Time-offset payload stored alongside the record when the flag is set. -/
structure Payload where
  internalTime : DateTime
  timeOffset : Int
deriving DecidableEq, Repr

/-- The record produced by parseGlucoseMeasurement; fields that the source
only sets under a flag are options. -/
structure MeasurementRecord where
  flags : Nat
  seqNum : Nat
  payload : Option Payload
  timestamp : DateTime
  units : Option String
  value : Option SFloatRes
  type : Option Nat
  location : Option Nat
  status : Option Nat
  hasContext : Bool
deriving DecidableEq, Repr

/-- The record produced by parseMeasurementContext. -/
structure ContextRecord where
  flags : Nat
  seqNum : Nat
  extended : Option Nat
  carbID : Option Nat
  carbUnits : Option Nat
  meal : Option Nat
deriving DecidableEq, Repr

/-- The session state: the accumulated measurement and context records. -/
structure SessionState where
  records : List MeasurementRecord
  contextRecords : List ContextRecord
deriving DecidableEq, Repr

/-- Events dispatched by the RACP handler (CustomEvent payloads in the
source): a record count, a data result carrying both record sequences, or
the empty data result dispatched for the no-records-found response. -/
inductive Event where
  | numberOfRecords : Nat → Event
  | data : List MeasurementRecord → List ContextRecord → Event
  | dataEmpty : Event
deriving DecidableEq, Repr

/-- The unadjusted base date-time read from measurement bytes 3 to 9
(year uint16 LE, then month, day, hours, minutes, seconds bytes). -/
def readBaseDateTime (result : List Nat) : Except String DateTime := do
  let year ← getUint16LE result 3
  let month ← getUint8 result 5
  let day ← getUint8 result 6
  let hours ← getUint8 result 7
  let minutes ← getUint8 result 8
  let seconds ← getUint8 result 9
  pure ⟨year, month, day, hours, minutes, seconds⟩

/-- Month normalization applied by the parser for the i-SENS firmware bug:
a month byte of exactly 13 becomes 1, every other value passes through. -/
def normalizeMonth (d : DateTime) : DateTime :=
  { d with month := if d.month = 13 then 1 else d.month }

/-- The optional time-offset group of parseGlucoseMeasurement: when the flag
is set, the signed offset at bytes 10 to 11 is stored in the payload next to
the base timestamp and the running field offset advances by 2. -/
def readPayloadOffset (flags : Nat) (result : List Nat) (dateTime : DateTime) :
    Except String (Option Payload × Nat) :=
  if hasFlag FLAGS_TIME_OFFSET_PRESENT flags then do
    let timeOffset ← getInt16LE result 10
    pure ((some ⟨buildTimestamp dateTime, timeOffset⟩ : Option Payload), 2)
  else pure ((none : Option Payload), 0)

/-- The optional trailing sensor-status word of parseGlucoseMeasurement. -/
def readStatus (flags : Nat) (result : List Nat) (offset : Nat) :
    Except String (Option Nat) :=
  if hasFlag FLAGS_STATUS_PRESENT flags then do
    let s ← getUint16LE result (offset + 13)
    pure (some s)
  else pure (none : Option Nat)

/-- Embedding of parseGlucoseMeasurement from src/index.js: flags byte,
sequence number, base date-time with month normalization, optional
time-offset payload (offset advances by 2), optional glucose group decoded
with getSFLOAT, optional trailing status word. The canonical timestamp is
always the base date-time. -/
def parseGlucoseMeasurement (result : List Nat) : Except String MeasurementRecord := do
  let flags ← getUint8 result 0
  let seqNum ← getUint16LE result 1
  let d0 ← readBaseDateTime result
  let po ← readPayloadOffset flags result (normalizeMonth d0)
  if hasFlag FLAGS_GLUCOSE_PRESENT flags then do
    let raw ← getUint16LE result (po.2 + 10)
    let value ← getSFLOAT raw (if hasFlag FLAGS_IS_MMOL flags then "mmol/L" else "mg/dL")
    let tl ← getUint8 result (po.2 + 12)
    let status ← readStatus flags result po.2
    pure { flags := flags, seqNum := seqNum, payload := po.1,
           timestamp := buildTimestamp (normalizeMonth d0),
           units := some (if hasFlag FLAGS_IS_MMOL flags then "mmol/L" else "mg/dL"),
           value := some value, type := some (tl >>> 4),
           location := some (jsAnd tl 0x0F), status := status,
           hasContext := hasFlag FLAGS_CONTEXT_INFO flags }
  else
    pure { flags := flags, seqNum := seqNum, payload := po.1,
           timestamp := buildTimestamp (normalizeMonth d0),
           units := none, value := none, type := none, location := none, status := none,
           hasContext := hasFlag FLAGS_CONTEXT_INFO flags }

/-- Minimum measurement buffer length demanded by a flags byte: the reads
performed by parseGlucoseMeasurement reach exactly this many bytes. -/
def requiredLength (flags : Nat) : Nat :=
  10 + (if hasFlag FLAGS_TIME_OFFSET_PRESENT flags then 2 else 0)
    + (if hasFlag FLAGS_GLUCOSE_PRESENT flags then
        3 + (if hasFlag FLAGS_STATUS_PRESENT flags then 2 else 0) else 0)

/-- Embedding of parseMeasurementContext from src/index.js: flags byte,
sequence number, then a cursor starting at 3 that advances by 1 for the
extended byte, by 2 after the carbohydrate group (as in the source), and by
1 for the meal byte. -/
def parseMeasurementContext (result : List Nat) : Except String ContextRecord := do
  let flags ← getUint8 result 0
  let seqNum ← getUint16LE result 1
  let eo ←
    if hasFlag CONTEXT_FLAGS_EXTENDED flags then do
      let e ← getUint8 result 3
      pure ((some e : Option Nat), 3 + 1)
    else pure ((none : Option Nat), 3)
  let co ←
    if hasFlag CONTEXT_FLAGS_CARBS flags then do
      let cid ← getUint8 result eo.2
      let cu ← getUint16LE result (eo.2 + 1)
      pure ((some cid : Option Nat), (some cu : Option Nat), eo.2 + 2)
    else pure ((none : Option Nat), (none : Option Nat), eo.2)
  let mo ←
    if hasFlag CONTEXT_FLAGS_MEAL flags then do
      let m ← getUint8 result co.2.2
      pure ((some m : Option Nat), co.2.2 + 1)
    else pure ((none : Option Nat), co.2.2)
  pure ⟨flags, seqNum, eo.1, co.1, co.2.1, mo.1⟩

/-- Embedding of handleRACP from src/index.js: decode op code, operator and
the little-endian operand, then dispatch events; an unrecognized op code
throws. The returned list holds the events dispatched by the handler. -/
def handleRACP (st : SessionState) (buf : List Nat) : Except String (List Event) := do
  let opCode ← getUint8 buf 0
  let _operator ← getUint8 buf 1
  let operand ← getUint16LE buf 2
  if opCode = 0x05 then
    pure [Event.numberOfRecords operand]
  else if opCode = 0x06 then
    if operand = 0x0101 then
      pure [Event.data st.records st.contextRecords]
    else if operand = 0x0601 then
      pure [Event.dataEmpty]
    else
      pure []
  else
    .error "Unrecognized op code"

/-- The append policy of handleNotifications: the parsed record is pushed
unless its sequence number equals the sequence number of the most recently
pushed record. -/
def appendMeasurement (records : List MeasurementRecord) (r : MeasurementRecord) :
    List MeasurementRecord :=
  if (records.getLast?).map MeasurementRecord.seqNum ≠ some r.seqNum then
    records ++ [r]
  else
    records

/-- Embedding of handleNotifications from src/index.js: parse the measurement
buffer and append it under the adjacent-only de-duplication policy. -/
def handleNotifications (st : SessionState) (buf : List Nat) :
    Except String SessionState := do
  let parsed ← parseGlucoseMeasurement buf
  pure { st with records := appendMeasurement st.records parsed }

/-- Embedding of handleContextNotifications from src/index.js: parse the
context buffer and always push it. -/
def handleContextNotifications (st : SessionState) (buf : List Nat) :
    Except String SessionState := do
  let parsed ← parseMeasurementContext buf
  pure { st with contextRecords := st.contextRecords ++ [parsed] }

/-- Delivery of a sequence of measurement notifications to the handler. -/
def notifyAll (st : SessionState) (bufs : List (List Nat)) :
    Except String SessionState :=
  bufs.foldlM handleNotifications st

/-- Embedding of getNumberOfRecords: writes the RACP count command and leaves
the session state unchanged. The result pairs the state after the operation
with the bytes written to the RACP characteristic. -/
def getNumberOfRecords (st : SessionState) : SessionState × List Nat :=
  (st, [0x04, 0x01])

/-- Embedding of getDeltaNumberOfRecords: writes the count-since-sequence
command without touching the record sequences. -/
def getDeltaNumberOfRecords (st : SessionState) (seqNum : Nat) :
    SessionState × List Nat :=
  (st, [0x04, 0x03, 0x01, seqNum % 256, seqNum % 65536 / 256])

/-- Embedding of getAllRecords: clears both record sequences, then writes the
report-stored-records command. -/
def getAllRecords (_st : SessionState) : SessionState × List Nat :=
  (⟨[], []⟩, [0x01, 0x01])

/-- Embedding of getDeltaRecords: clears both record sequences, then writes
the report-stored-records-since-sequence command. -/
def getDeltaRecords (_st : SessionState) (seqNum : Nat) : SessionState × List Nat :=
  (⟨[], []⟩, [0x01, 0x03, 0x01, seqNum % 256, seqNum % 65536 / 256])

/-- A concrete measurement record used for counterexample session states. -/
def sampleRecord : MeasurementRecord :=
  { flags := 0, seqNum := 7, payload := none, timestamp := ⟨2019, 1, 1, 0, 0, 0⟩,
    units := none, value := none, type := none, location := none, status := none,
    hasContext := false }

/-- Minimal measurement notification buffers (flags byte 0) carrying the
given sequence numbers. -/
def measBufs (ns : List Nat) : List (List Nat) :=
  ns.map (fun n => [0, n % 256, n / 256, 0, 0, 1, 1, 0, 0, 0])

/-- The record parsed from the minimal measurement buffer with sequence
number 1, used by the C4 witness. -/
def parsedRec1 : MeasurementRecord :=
  { flags := 0, seqNum := 1, payload := none, timestamp := ⟨0, 1, 1, 0, 0, 0⟩,
    units := none, value := none, type := none, location := none, status := none,
    hasContext := false }

/-- The record parsed from the C5 witness buffer: time-offset flag set,
month byte 13 (normalized to 1), offset 5 minutes. -/
def c5rec : MeasurementRecord :=
  { flags := 1, seqNum := 1, payload := some ⟨⟨0, 1, 1, 0, 0, 0⟩, 5⟩,
    timestamp := ⟨0, 1, 1, 0, 0, 0⟩, units := none, value := none, type := none,
    location := none, status := none, hasContext := false }

theorem ok_bind {α β : Type} (a : α) (f : α → Except String β) :
    (Except.ok a >>= f) = f a := rfl

theorem error_bind {α β : Type} (e : String) (f : α → Except String β) :
    ((Except.error e : Except String α) >>= f) = .error e := rfl

theorem pure_eq_ok {α : Type} (a : α) : (pure a : Except String α) = .ok a := rfl

theorem epure_eq_ok {α : Type} (a : α) : (Except.pure a : Except String α) = .ok a := rfl

theorem bind_ok_inv {α β : Type} {e : Except String α} {f : α → Except String β} {b : β}
    (h : (e >>= f) = .ok b) : ∃ a, e = .ok a ∧ f a = .ok b := by
  cases e with
  | error err => rw [error_bind] at h; exact absurd h (by simp)
  | ok a => rw [ok_bind] at h; exact ⟨a, rfl, h⟩

theorem getUint8_ok_of_lt {buf : List Nat} {i : Nat} (h : i < buf.length) :
    ∃ b, getUint8 buf i = .ok b := by
  unfold getUint8
  rw [List.getElem?_eq_getElem h]
  exact ⟨_, rfl⟩

theorem getUint8_err_of_le {buf : List Nat} {i : Nat} (h : buf.length ≤ i) :
    getUint8 buf i = .error "RangeError" := by
  unfold getUint8
  rw [List.getElem?_eq_none h]

theorem getUint16LE_ok_of_lt {buf : List Nat} {i : Nat} (h : i + 1 < buf.length) :
    ∃ v, getUint16LE buf i = .ok v := by
  obtain ⟨lo, hlo⟩ := getUint8_ok_of_lt (Nat.lt_of_le_of_lt (Nat.le_succ i) h)
  obtain ⟨hi, hhi⟩ := getUint8_ok_of_lt h
  exact ⟨lo + 256 * hi, by simp [getUint16LE, hlo, hhi, ok_bind, pure_eq_ok]⟩

theorem getInt16LE_ok_of_lt {buf : List Nat} {i : Nat} (h : i + 1 < buf.length) :
    ∃ v, getInt16LE buf i = .ok v := by
  obtain ⟨v, hv⟩ := getUint16LE_ok_of_lt h
  refine ⟨if 0x8000 ≤ v then (v : Int) - 0x10000 else (v : Int), ?_⟩
  simp [getInt16LE, hv, ok_bind, pure_eq_ok]

theorem readBaseDateTime_ok_of {buf : List Nat} (h : 9 < buf.length) :
    ∃ d, readBaseDateTime buf = .ok d := by
  obtain ⟨y, hy⟩ := getUint16LE_ok_of_lt (show 3 + 1 < buf.length by omega)
  obtain ⟨mo, h5⟩ := getUint8_ok_of_lt (show 5 < buf.length by omega)
  obtain ⟨da, h6⟩ := getUint8_ok_of_lt (show 6 < buf.length by omega)
  obtain ⟨ho, h7⟩ := getUint8_ok_of_lt (show 7 < buf.length by omega)
  obtain ⟨mi, h8⟩ := getUint8_ok_of_lt (show 8 < buf.length by omega)
  obtain ⟨se, h9⟩ := getUint8_ok_of_lt h
  exact ⟨⟨y, mo, da, ho, mi, se⟩,
    by simp [readBaseDateTime, hy, h5, h6, h7, h8, h9, ok_bind, pure_eq_ok]⟩

theorem getSFLOAT_units_ok (x : Nat) (b : Bool) :
    ∃ v, getSFLOAT x (if b then "mmol/L" else "mg/dL") = .ok v := by
  have h : ∀ u : String, u = "mg/dL" ∨ u = "mmol/L" → ∃ v, getSFLOAT x u = .ok v := by
    intro u hu
    rcases hu with hu | hu <;> subst hu <;> unfold getSFLOAT <;> split_ifs <;>
      first
        | exact ⟨_, rfl⟩
        | simp_all
  cases b
  · simpa using h "mg/dL" (Or.inl rfl)
  · simpa using h "mmol/L" (Or.inr rfl)

theorem getSFLOAT_eq_spec (value : Nat) (units : String)
    (hu : units = "mg/dL" ∨ units = "mmol/L") :
    getSFLOAT value units = .ok (sfloatSpec value units) := by
  have hshift : (value >>> 12) = value / 4096 := by
    have h := Nat.shiftRight_eq_div_pow value 12
    norm_num at h; exact h
  have hand : value &&& 0x0FFF = value % 4096 := by
    have h := Nat.and_pow_two_sub_one_eq_mod value 12
    norm_num at h; exact h
  unfold getSFLOAT sfloatSpec
  rcases hu with hu | hu <;> subst hu <;>
    by_cases h1 : value = 0x07FF <;> by_cases h2 : value = 0x0800 <;>
    by_cases h3 : value = 0x07FE <;> by_cases h4 : value = 0x0802 <;>
    by_cases h5 : value = 0x0801 <;>
    simp_all [hshift, hand, ok_bind, pure, epure_eq_ok]

theorem sfloat_example_mgdl : getSFLOAT 0x000A "mg/dL" = .ok (.num 1000000) := by
  have h1 : (10 : Nat) >>> 12 = 0 := rfl
  have h2 : (10 : Nat) &&& 4095 = 10 := rfl
  simp only [getSFLOAT, epure_eq_ok, ok_bind, h1, h2]
  norm_num [pure_eq_ok, ok_bind]

theorem sfloat_example_mmol : getSFLOAT 0xF0C8 "mmol/L" = .ok (.num 20000) := by
  have h1 : (0xF0C8 : Nat) >>> 12 = 15 := rfl
  have h2 : (0xF0C8 : Nat) &&& 4095 = 200 := rfl
  simp only [getSFLOAT, epure_eq_ok, ok_bind, h1, h2]
  rw [if_neg (show ¬("mmol/L" = "mg/dL") by decide)]
  norm_num [pure_eq_ok, ok_bind]

/-- C1: for every 16-bit input value and unit selector among mg/dL and mmol/L,
the SFLOAT decoder equals the reference definition written from the spec; the
five reserved patterns return their sentinels before any numeric decoding and
regardless of the unit selector; 0x000A with mg/dL yields 1000000 and 0xF0C8
with mmol/L yields 20000. -/
theorem c1_sfloat_decoder (value : Nat) (units : String)
    (_hv : value < 65536) (hu : units = "mg/dL" ∨ units = "mmol/L") :
    getSFLOAT value units = .ok (sfloatSpec value units)
    ∧ (∀ u : String, getSFLOAT 0x07FF u = .ok .nan ∧ getSFLOAT 0x0800 u = .ok .nan
        ∧ getSFLOAT 0x0801 u = .ok .nan ∧ getSFLOAT 0x07FE u = .ok .posInf
        ∧ getSFLOAT 0x0802 u = .ok .negInf)
    ∧ getSFLOAT 0x000A "mg/dL" = .ok (.num 1000000)
    ∧ getSFLOAT 0xF0C8 "mmol/L" = .ok (.num 20000) :=
  ⟨getSFLOAT_eq_spec value units hu,
   fun _ => ⟨rfl, rfl, rfl, rfl, rfl⟩,
   sfloat_example_mgdl, sfloat_example_mmol⟩

/-- Witness for C1 at value 10 with unit mg/dL. -/
theorem c1_sfloat_decoder_witness :
    10 < 65536 ∧ ("mg/dL" = "mg/dL" ∨ "mg/dL" = "mmol/L")
      ∧ getSFLOAT 10 "mg/dL" = .ok (sfloatSpec 10 "mg/dL") :=
  ⟨by norm_num, Or.inl rfl, (c1_sfloat_decoder 10 "mg/dL" (by norm_num) (Or.inl rfl)).1⟩

/-- C8 counterexample: the reserved value 0x07FF decodes to the NaN sentinel
even with an invalid unit selector, instead of failing with an InvalidUnit
error, because the sentinel switch runs before the unit check. -/
theorem c8_counterexample :
    getSFLOAT 0x07FF "kg" = .ok .nan ∧ (getSFLOAT 0x07FF "kg").isOk = true :=
  ⟨rfl, rfl⟩

/-- C8 amended: for every 16-bit value other than the five reserved patterns,
decoding with a unit selector outside mg/dL and mmol/L fails with the
InvalidUnit error; the reserved patterns return sentinels regardless of the
unit selector. -/
theorem c8_invalid_unit (value : Nat) (units : String) (_hv : value < 65536)
    (h1 : value ≠ 0x07FF) (h2 : value ≠ 0x0800) (h3 : value ≠ 0x07FE)
    (h4 : value ≠ 0x0802) (h5 : value ≠ 0x0801)
    (hu1 : units ≠ "mg/dL") (hu2 : units ≠ "mmol/L") :
    getSFLOAT value units = .error "Illegal units for glucose value" := by
  simp [getSFLOAT, h1, h2, h3, h4, h5, hu1, hu2, error_bind]

/-- Witness for C8 at value 0 with the empty unit string. -/
theorem c8_invalid_unit_witness :
    (0 : Nat) < 65536 ∧ ("" : String) ≠ "mg/dL" ∧ ("" : String) ≠ "mmol/L"
      ∧ getSFLOAT 0 "" = .error "Illegal units for glucose value" :=
  ⟨by norm_num, by decide, by decide,
   c8_invalid_unit 0 "" (by norm_num) (by decide) (by decide) (by decide)
     (by decide) (by decide) (by decide) (by decide)⟩

set_option maxRecDepth 4096 in
/-- C2: on a 4-byte RACP response buffer, op code 0x05 fires exactly one
count event carrying the little-endian operand; op code 0x06 with operand
0x0101 fires exactly one data event carrying the accumulated measurement and
context record sequences; op code 0x06 with operand 0x0601 fires exactly one
data event carrying the empty result. -/
theorem c2_racp_responses (st : SessionState) (b lo hi : Nat) :
    handleRACP st [0x05, b, lo, hi] = .ok [Event.numberOfRecords (lo + 256 * hi)]
    ∧ handleRACP st [0x06, b, 0x01, 0x01] = .ok [Event.data st.records st.contextRecords]
    ∧ handleRACP st [0x06, b, 0x01, 0x06] = .ok [Event.dataEmpty] := by
  refine ⟨?_, rfl, rfl⟩
  simp [handleRACP, getUint16LE, getUint8, ok_bind, pure_eq_ok]

/-- C3 evaluation: an unrecognized op code such as 0x09 raises the protocol
error, but op code 0x06 with operand 0x0105 (outside the defined set) is
silently ignored by the code, dispatching no event and raising no error. -/
theorem c3_code_eval :
    handleRACP ⟨[], []⟩ [0x09, 0x00, 0x00, 0x00] = .error "Unrecognized op code"
    ∧ handleRACP ⟨[], []⟩ [0x06, 0x00, 0x05, 0x01] = .ok [] :=
  ⟨rfl, rfl⟩

set_option maxRecDepth 8192 in
/-- C4: each parsed measurement record is appended unless its sequence number
equals that of the most recently appended record, and the check never scans
earlier history: sequence numbers 1,1,2,3,3,3 yield stored numbers 1,2,3
while 1,2,1 yields 1,2,1 with the non-adjacent duplicate preserved. -/
theorem c4_dedup_policy :
    (∀ (st : SessionState) (buf : List Nat) (r : MeasurementRecord),
      parseGlucoseMeasurement buf = .ok r →
      handleNotifications st buf
        = .ok { st with records := appendMeasurement st.records r })
    ∧ (∀ (rs : List MeasurementRecord) (r : MeasurementRecord),
        ((rs.getLast?).map MeasurementRecord.seqNum = some r.seqNum →
          appendMeasurement rs r = rs)
        ∧ ((rs.getLast?).map MeasurementRecord.seqNum ≠ some r.seqNum →
          appendMeasurement rs r = rs ++ [r]))
    ∧ (notifyAll ⟨[], []⟩ (measBufs [1, 1, 2, 3, 3, 3])).map
        (fun st => st.records.map MeasurementRecord.seqNum) = .ok [1, 2, 3]
    ∧ (notifyAll ⟨[], []⟩ (measBufs [1, 2, 1])).map
        (fun st => st.records.map MeasurementRecord.seqNum) = .ok [1, 2, 1] := by
  refine ⟨?_, ?_, by rfl, by rfl⟩
  · intro st buf r h
    simp [handleNotifications, h, ok_bind, pure_eq_ok]
  · intro rs r
    constructor <;> intro h <;> simp [appendMeasurement, h]

/-- Witness for C4: delivering the minimal notification with sequence number
1 to the empty session appends its parsed record. -/
theorem c4_dedup_policy_witness :
    handleNotifications ⟨[], []⟩ [0, 1, 0, 0, 0, 1, 1, 0, 0, 0]
      = .ok { (⟨[], []⟩ : SessionState) with
              records := appendMeasurement [] parsedRec1 } :=
  c4_dedup_policy.1 ⟨[], []⟩ [0, 1, 0, 0, 0, 1, 1, 0, 0, 0] parsedRec1 rfl

/-- C6 evaluation: with the carbs and meal flags set, the parser advances the
cursor by only 2 after the 3-byte carbohydrate group, so the meal code is
read from the high byte of the carbohydrate amount (byte 5, value 0xCC)
rather than from the byte following the group (byte 6, value 0xDD). -/
theorem c6_code_eval :
    parseMeasurementContext [0x03, 0x01, 0x00, 0xAA, 0xBB, 0xCC, 0xDD]
      = .ok ⟨0x03, 0x01, none, some 0xAA, some 0xCCBB, some 0xCC⟩ :=
  rfl

/-- C7 evaluation: for the type and location byte 0x23, the parser yields
sample type 2 (the high nibble) but sample location 15, because the source
masks with a logical AND instead of a bitwise AND; the bitwise low nibble
would be 3. -/
theorem c7_code_eval :
    (parseGlucoseMeasurement
        [0x02, 0x2A, 0x00, 0xE3, 0x07, 0x05, 0x01, 0x00, 0x00, 0x00, 0x64, 0x00, 0x23]).map
        (fun r => (r.type, r.location)) = .ok (some 2, some 15)
    ∧ (0x23 : Nat) &&& 0x0F = 3 ∧ jsAnd 0x23 0x0F = 15 :=
  ⟨rfl, by decide, rfl⟩

/-- C10 counterexample: getDeltaNumberOfRecords does not clear the record
sequences; issued on a session holding one measurement record, the record
survives the operation. -/
theorem c10_counterexample :
    (getDeltaNumberOfRecords ⟨[sampleRecord], []⟩ 5).1.records ≠ [] := by
  simp [getDeltaNumberOfRecords]

/-- C10 amended: getAllRecords and getDeltaRecords clear both record
sequences before the command is written, while getNumberOfRecords and
getDeltaNumberOfRecords leave the session state unchanged. -/
theorem c10_reset_policy (st : SessionState) (seqNum : Nat) :
    (getAllRecords st).1 = ⟨[], []⟩
    ∧ (getDeltaRecords st seqNum).1 = ⟨[], []⟩
    ∧ (getNumberOfRecords st).1 = st
    ∧ (getDeltaNumberOfRecords st seqNum).1 = st :=
  ⟨rfl, rfl, rfl, rfl⟩

/-- C5: the canonical timestamp is always built from the unadjusted base
date-time at bytes 3 to 9, with a month byte of exactly 13 replaced by 1 and
months 1 to 12 passing through unchanged; when the time-offset flag is set,
the signed 16-bit offset is stored alongside in the record payload but never
applied to the canonical timestamp. -/
theorem c5_timestamp_policy (buf : List Nat) (r : MeasurementRecord) (d : DateTime)
    (hr : parseGlucoseMeasurement buf = .ok r)
    (hd : readBaseDateTime buf = .ok d) :
    r.timestamp = buildTimestamp (normalizeMonth d)
    ∧ (d.month = 13 → r.timestamp.month = 1)
    ∧ (1 ≤ d.month → d.month ≤ 12 → r.timestamp.month = d.month)
    ∧ (hasFlag FLAGS_TIME_OFFSET_PRESENT r.flags = true →
        ∃ off, getInt16LE buf 10 = .ok off ∧ r.payload = some ⟨r.timestamp, off⟩) := by
  unfold parseGlucoseMeasurement at hr
  obtain ⟨flags, e0, hr⟩ := bind_ok_inv hr
  obtain ⟨seq, e1, hr⟩ := bind_ok_inv hr
  obtain ⟨d0, hd0, hr⟩ := bind_ok_inv hr
  rw [hd] at hd0
  cases hd0
  obtain ⟨po, epo, hr⟩ := bind_ok_inv hr
  have hmonth13 : d.month = 13 → (normalizeMonth d).month = 1 := by
    intro h13
    simp [normalizeMonth, h13]
  have hmonthid : 1 ≤ d.month → d.month ≤ 12 → (normalizeMonth d).month = d.month := by
    intro hm1 hm2
    have hne : d.month ≠ 13 := by omega
    simp [normalizeMonth, hne]
  unfold readPayloadOffset at epo
  cases h_t : hasFlag FLAGS_TIME_OFFSET_PRESENT flags with
  | false =>
    simp only [h_t, Bool.false_eq_true, if_false, pure_eq_ok, Except.ok.injEq] at epo
    subst epo
    cases h_g : hasFlag FLAGS_GLUCOSE_PRESENT flags with
    | false =>
      simp only [h_g, Bool.false_eq_true, if_false, pure_eq_ok, Except.ok.injEq] at hr
      subst hr
      refine ⟨rfl, hmonth13, hmonthid, ?_⟩
      intro habs
      simp [h_t] at habs
    | true =>
      simp only [h_g, if_true] at hr
      obtain ⟨raw, eraw, hr⟩ := bind_ok_inv hr
      obtain ⟨v, ev, hr⟩ := bind_ok_inv hr
      obtain ⟨tl, etl, hr⟩ := bind_ok_inv hr
      obtain ⟨stat, est, hr⟩ := bind_ok_inv hr
      simp only [pure_eq_ok, Except.ok.injEq] at hr
      subst hr
      refine ⟨rfl, hmonth13, hmonthid, ?_⟩
      intro habs
      simp [h_t] at habs
  | true =>
    simp only [h_t, if_true] at epo
    obtain ⟨off, e10, epo⟩ := bind_ok_inv epo
    simp only [pure_eq_ok, Except.ok.injEq] at epo
    subst epo
    cases h_g : hasFlag FLAGS_GLUCOSE_PRESENT flags with
    | false =>
      simp only [h_g, Bool.false_eq_true, if_false, pure_eq_ok, Except.ok.injEq] at hr
      subst hr
      exact ⟨rfl, hmonth13, hmonthid, fun _ => ⟨off, e10, rfl⟩⟩
    | true =>
      simp only [h_g, if_true] at hr
      obtain ⟨raw, eraw, hr⟩ := bind_ok_inv hr
      obtain ⟨v, ev, hr⟩ := bind_ok_inv hr
      obtain ⟨tl, etl, hr⟩ := bind_ok_inv hr
      obtain ⟨stat, est, hr⟩ := bind_ok_inv hr
      simp only [pure_eq_ok, Except.ok.injEq] at hr
      subst hr
      exact ⟨rfl, hmonth13, hmonthid, fun _ => ⟨off, e10, rfl⟩⟩

/-- Witness for C5 on a buffer with the time-offset flag set and month byte
13: the timestamp is the normalized base date-time. -/
theorem c5_timestamp_policy_witness :
    c5rec.timestamp = buildTimestamp (normalizeMonth ⟨0, 13, 1, 0, 0, 0⟩)
    ∧ ((⟨0, 13, 1, 0, 0, 0⟩ : DateTime).month = 13 → c5rec.timestamp.month = 1) :=
  have h := c5_timestamp_policy [1, 1, 0, 0, 0, 13, 1, 0, 0, 0, 5, 0] c5rec
    ⟨0, 13, 1, 0, 0, 0⟩ rfl rfl
  ⟨h.1, h.2.1⟩

theorem parse_ok_of_required (flags : Nat) (buf : List Nat)
    (h0 : buf[0]? = some flags) (hlen : requiredLength flags ≤ buf.length) :
    (parseGlucoseMeasurement buf).isOk = true := by
  have e0 : getUint8 buf 0 = .ok flags := by simp [getUint8, h0]
  have hbase : 10 ≤ requiredLength flags := by
    unfold requiredLength; split_ifs <;> omega
  obtain ⟨seq, e1⟩ := @getUint16LE_ok_of_lt buf (1) (by omega)
  obtain ⟨d, ed⟩ := @readBaseDateTime_ok_of buf (by omega)
  cases h_t : hasFlag FLAGS_TIME_OFFSET_PRESENT flags with
  | false =>
    have epo : readPayloadOffset flags buf (normalizeMonth d)
        = .ok ((none : Option Payload), 0) := by
      simp [readPayloadOffset, h_t, pure_eq_ok]
    cases h_g : hasFlag FLAGS_GLUCOSE_PRESENT flags with
    | false =>
      simp [parseGlucoseMeasurement, e0, e1, ed, epo, h_g, ok_bind, pure_eq_ok,
            Except.isOk, Except.toBool]
    | true =>
      cases h_s : hasFlag FLAGS_STATUS_PRESENT flags with
      | false =>
        have hreq : requiredLength flags = 13 := by simp [requiredLength, h_t, h_g, h_s]
        obtain ⟨raw, eraw⟩ := @getUint16LE_ok_of_lt buf (10) (by omega)
        obtain ⟨v, esf⟩ := getSFLOAT_units_ok raw (hasFlag FLAGS_IS_MMOL flags)
        obtain ⟨tl, etl⟩ := @getUint8_ok_of_lt buf (12) (by omega)
        have est : readStatus flags buf 0 = .ok none := by
          simp [readStatus, h_s, pure_eq_ok]
        simp [parseGlucoseMeasurement, e0, e1, ed, epo, h_g, eraw, esf, etl, est,
              ok_bind, pure_eq_ok, Except.isOk, Except.toBool]
      | true =>
        have hreq : requiredLength flags = 15 := by simp [requiredLength, h_t, h_g, h_s]
        obtain ⟨raw, eraw⟩ := @getUint16LE_ok_of_lt buf (10) (by omega)
        obtain ⟨v, esf⟩ := getSFLOAT_units_ok raw (hasFlag FLAGS_IS_MMOL flags)
        obtain ⟨tl, etl⟩ := @getUint8_ok_of_lt buf (12) (by omega)
        obtain ⟨sv, e13⟩ := @getUint16LE_ok_of_lt buf (13) (by omega)
        have est : readStatus flags buf 0 = .ok (some sv) := by
          simp [readStatus, h_s, e13, ok_bind, pure_eq_ok]
        simp [parseGlucoseMeasurement, e0, e1, ed, epo, h_g, eraw, esf, etl, est,
              ok_bind, pure_eq_ok, Except.isOk, Except.toBool]
  | true =>
    have hoff : 12 ≤ requiredLength flags := by
      simp only [requiredLength, h_t, if_true]
      split_ifs <;> omega
    obtain ⟨off, e10⟩ := @getInt16LE_ok_of_lt buf (10) (by omega)
    have epo : readPayloadOffset flags buf (normalizeMonth d)
        = .ok (some ⟨buildTimestamp (normalizeMonth d), off⟩, 2) := by
      simp [readPayloadOffset, h_t, e10, ok_bind, pure_eq_ok]
    cases h_g : hasFlag FLAGS_GLUCOSE_PRESENT flags with
    | false =>
      simp [parseGlucoseMeasurement, e0, e1, ed, epo, h_g, ok_bind, pure_eq_ok,
            Except.isOk, Except.toBool]
    | true =>
      cases h_s : hasFlag FLAGS_STATUS_PRESENT flags with
      | false =>
        have hreq : requiredLength flags = 15 := by simp [requiredLength, h_t, h_g, h_s]
        obtain ⟨raw, eraw⟩ := @getUint16LE_ok_of_lt buf (12) (by omega)
        obtain ⟨v, esf⟩ := getSFLOAT_units_ok raw (hasFlag FLAGS_IS_MMOL flags)
        obtain ⟨tl, etl⟩ := @getUint8_ok_of_lt buf (14) (by omega)
        have est : readStatus flags buf 2 = .ok none := by
          simp [readStatus, h_s, pure_eq_ok]
        simp [parseGlucoseMeasurement, e0, e1, ed, epo, h_g, eraw, esf, etl, est,
              ok_bind, pure_eq_ok, Except.isOk, Except.toBool]
      | true =>
        have hreq : requiredLength flags = 17 := by simp [requiredLength, h_t, h_g, h_s]
        obtain ⟨raw, eraw⟩ := @getUint16LE_ok_of_lt buf (12) (by omega)
        obtain ⟨v, esf⟩ := getSFLOAT_units_ok raw (hasFlag FLAGS_IS_MMOL flags)
        obtain ⟨tl, etl⟩ := @getUint8_ok_of_lt buf (14) (by omega)
        obtain ⟨sv, e15⟩ := @getUint16LE_ok_of_lt buf (15) (by omega)
        have est : readStatus flags buf 2 = .ok (some sv) := by
          simp [readStatus, h_s, e15, ok_bind, pure_eq_ok]
        simp [parseGlucoseMeasurement, e0, e1, ed, epo, h_g, eraw, esf, etl, est,
              ok_bind, pure_eq_ok, Except.isOk, Except.toBool]

theorem parse_err_one_short (flags : Nat) (buf : List Nat)
    (h0 : buf[0]? = some flags) (hlen : buf.length = requiredLength flags - 1) :
    parseGlucoseMeasurement buf = .error "RangeError" := by
  have e0 : getUint8 buf 0 = .ok flags := by simp [getUint8, h0]
  cases h_t : hasFlag FLAGS_TIME_OFFSET_PRESENT flags with
  | false =>
    cases h_g : hasFlag FLAGS_GLUCOSE_PRESENT flags with
    | false =>
      have hreq : requiredLength flags = 10 := by simp [requiredLength, h_t, h_g]
      obtain ⟨seq, e1⟩ := @getUint16LE_ok_of_lt buf (1) (by omega)
      obtain ⟨y, hy⟩ := @getUint16LE_ok_of_lt buf (3) (by omega)
      obtain ⟨b5, h5⟩ := @getUint8_ok_of_lt buf (5) (by omega)
      obtain ⟨b6, h6⟩ := @getUint8_ok_of_lt buf (6) (by omega)
      obtain ⟨b7, h7⟩ := @getUint8_ok_of_lt buf (7) (by omega)
      obtain ⟨b8, h8⟩ := @getUint8_ok_of_lt buf (8) (by omega)
      have h9 : getUint8 buf 9 = .error "RangeError" := getUint8_err_of_le (by omega)
      simp [parseGlucoseMeasurement, readBaseDateTime, e0, e1, hy, h5, h6, h7, h8, h9,
            ok_bind, error_bind, pure_eq_ok]
    | true =>
      cases h_s : hasFlag FLAGS_STATUS_PRESENT flags with
      | false =>
        have hreq : requiredLength flags = 13 := by simp [requiredLength, h_t, h_g, h_s]
        obtain ⟨seq, e1⟩ := @getUint16LE_ok_of_lt buf (1) (by omega)
        obtain ⟨d, ed⟩ := @readBaseDateTime_ok_of buf (by omega)
        have epo : readPayloadOffset flags buf (normalizeMonth d)
            = .ok ((none : Option Payload), 0) := by
          simp [readPayloadOffset, h_t, pure_eq_ok]
        obtain ⟨raw, eraw⟩ := @getUint16LE_ok_of_lt buf (10) (by omega)
        obtain ⟨v, esf⟩ := getSFLOAT_units_ok raw (hasFlag FLAGS_IS_MMOL flags)
        have etl : getUint8 buf 12 = .error "RangeError" := getUint8_err_of_le (by omega)
        simp [parseGlucoseMeasurement, e0, e1, ed, epo, h_g, eraw, esf, etl,
              ok_bind, error_bind, pure_eq_ok]
      | true =>
        have hreq : requiredLength flags = 15 := by simp [requiredLength, h_t, h_g, h_s]
        obtain ⟨seq, e1⟩ := @getUint16LE_ok_of_lt buf (1) (by omega)
        obtain ⟨d, ed⟩ := @readBaseDateTime_ok_of buf (by omega)
        have epo : readPayloadOffset flags buf (normalizeMonth d)
            = .ok ((none : Option Payload), 0) := by
          simp [readPayloadOffset, h_t, pure_eq_ok]
        obtain ⟨raw, eraw⟩ := @getUint16LE_ok_of_lt buf (10) (by omega)
        obtain ⟨v, esf⟩ := getSFLOAT_units_ok raw (hasFlag FLAGS_IS_MMOL flags)
        obtain ⟨tl, etl⟩ := @getUint8_ok_of_lt buf (12) (by omega)
        obtain ⟨b13, h13⟩ := @getUint8_ok_of_lt buf (13) (by omega)
        have h14 : getUint8 buf 14 = .error "RangeError" := getUint8_err_of_le (by omega)
        have est : readStatus flags buf 0 = .error "RangeError" := by
          simp [readStatus, h_s, getUint16LE, h13, h14, ok_bind, error_bind, pure_eq_ok]
        simp [parseGlucoseMeasurement, e0, e1, ed, epo, h_g, eraw, esf, etl, est,
              ok_bind, error_bind, pure_eq_ok]
  | true =>
    cases h_g : hasFlag FLAGS_GLUCOSE_PRESENT flags with
    | false =>
      have hreq : requiredLength flags = 12 := by simp [requiredLength, h_t, h_g]
      obtain ⟨seq, e1⟩ := @getUint16LE_ok_of_lt buf (1) (by omega)
      obtain ⟨d, ed⟩ := @readBaseDateTime_ok_of buf (by omega)
      obtain ⟨b10, h10⟩ := @getUint8_ok_of_lt buf (10) (by omega)
      have h11 : getUint8 buf 11 = .error "RangeError" := getUint8_err_of_le (by omega)
      have epo : readPayloadOffset flags buf (normalizeMonth d)
          = .error "RangeError" := by
        simp [readPayloadOffset, h_t, getInt16LE, getUint16LE, h10, h11,
              ok_bind, error_bind, pure_eq_ok]
      simp [parseGlucoseMeasurement, e0, e1, ed, epo, ok_bind, error_bind, pure_eq_ok]
    | true =>
      cases h_s : hasFlag FLAGS_STATUS_PRESENT flags with
      | false =>
        have hreq : requiredLength flags = 15 := by simp [requiredLength, h_t, h_g, h_s]
        obtain ⟨seq, e1⟩ := @getUint16LE_ok_of_lt buf (1) (by omega)
        obtain ⟨d, ed⟩ := @readBaseDateTime_ok_of buf (by omega)
        obtain ⟨off, e10⟩ := @getInt16LE_ok_of_lt buf (10) (by omega)
        have epo : readPayloadOffset flags buf (normalizeMonth d)
            = .ok (some ⟨buildTimestamp (normalizeMonth d), off⟩, 2) := by
          simp [readPayloadOffset, h_t, e10, ok_bind, pure_eq_ok]
        obtain ⟨raw, eraw⟩ := @getUint16LE_ok_of_lt buf (12) (by omega)
        obtain ⟨v, esf⟩ := getSFLOAT_units_ok raw (hasFlag FLAGS_IS_MMOL flags)
        have etl : getUint8 buf 14 = .error "RangeError" := getUint8_err_of_le (by omega)
        simp [parseGlucoseMeasurement, e0, e1, ed, epo, h_g, eraw, esf, etl,
              ok_bind, error_bind, pure_eq_ok]
      | true =>
        have hreq : requiredLength flags = 17 := by simp [requiredLength, h_t, h_g, h_s]
        obtain ⟨seq, e1⟩ := @getUint16LE_ok_of_lt buf (1) (by omega)
        obtain ⟨d, ed⟩ := @readBaseDateTime_ok_of buf (by omega)
        obtain ⟨off, e10⟩ := @getInt16LE_ok_of_lt buf (10) (by omega)
        have epo : readPayloadOffset flags buf (normalizeMonth d)
            = .ok (some ⟨buildTimestamp (normalizeMonth d), off⟩, 2) := by
          simp [readPayloadOffset, h_t, e10, ok_bind, pure_eq_ok]
        obtain ⟨raw, eraw⟩ := @getUint16LE_ok_of_lt buf (12) (by omega)
        obtain ⟨v, esf⟩ := getSFLOAT_units_ok raw (hasFlag FLAGS_IS_MMOL flags)
        obtain ⟨tl, etl⟩ := @getUint8_ok_of_lt buf (14) (by omega)
        obtain ⟨b15, h15⟩ := @getUint8_ok_of_lt buf (15) (by omega)
        have h16 : getUint8 buf 16 = .error "RangeError" := getUint8_err_of_le (by omega)
        have est : readStatus flags buf 2 = .error "RangeError" := by
          simp [readStatus, h_s, getUint16LE, h15, h16, ok_bind, error_bind, pure_eq_ok]
        simp [parseGlucoseMeasurement, e0, e1, ed, epo, h_g, eraw, esf, etl, est,
              ok_bind, error_bind, pure_eq_ok]

/-- C9: for every flags byte, a measurement buffer of at least the minimum
length demanded by its flags parses successfully and a buffer one byte
shorter than that minimum fails with the range (decode) error, emitting no
record. -/
theorem c9_length_policy (flags : Nat) (buf short : List Nat)
    (hb0 : buf[0]? = some flags) (hblen : requiredLength flags ≤ buf.length)
    (hs0 : short[0]? = some flags) (hslen : short.length = requiredLength flags - 1) :
    (parseGlucoseMeasurement buf).isOk = true
    ∧ parseGlucoseMeasurement short = .error "RangeError" :=
  ⟨parse_ok_of_required flags buf hb0 hblen, parse_err_one_short flags short hs0 hslen⟩

/-- Witness for C9 at the glucose-present flags byte 0x02: a 13-byte buffer
parses and its 12-byte prefix fails. -/
theorem c9_length_policy_witness :
    (parseGlucoseMeasurement [2, 0, 0, 0, 0, 1, 1, 0, 0, 0, 0, 0, 0]).isOk = true
    ∧ parseGlucoseMeasurement [2, 0, 0, 0, 0, 1, 1, 0, 0, 0, 0, 0]
        = .error "RangeError" :=
  c9_length_policy 2 [2, 0, 0, 0, 0, 1, 1, 0, 0, 0, 0, 0, 0]
    [2, 0, 0, 0, 0, 1, 1, 0, 0, 0, 0, 0] rfl (by decide) rfl (by decide)

end BleGlucose
